import Mathlib

/-!
Verification development for the tg-video-bot repository (`src/main.py`).

The Python module is shallowly embedded: the pure decision logic
(`_estimated_too_big`, the fallback-ladder construction and selection loop of
`_extract_and_download`, `_pick_final_file`, `is_supported_url`) is translated
into executable Lean definitions, and the effectful driver `_download_and_send`
is modelled as a pure function over an environment describing the outcomes of
its external calls (the extraction engine and the chat transport).  Machine
integers are modelled as `Int` (Python integers are unbounded); Python `dict`
lookups of optional numeric keys become `Option Int`; exceptions become
explicit outcome constructors.
-/

namespace TgVideoBot

/-! ### Settings and selector constants (src/main.py lines 19-62) -/

/-- Default value of the `MAX_TG_BYTES` setting (src/main.py line 19). -/
def MAX_TG_BYTES_DEFAULT : Int := 1900000000

/-- `FORMAT_WITH_FFMPEG_720` (src/main.py lines 30-33): the two adjacent
Python string literals concatenate into one selector string. -/
def FORMAT_WITH_FFMPEG_720 : String :=
  "bv*[ext=mp4][height<=720]+ba[ext=m4a]/bv*+ba/b[ext=mp4][height<=720]/b/best"

/-- `FORMAT_WITH_FFMPEG_480` (src/main.py lines 34-37). -/
def FORMAT_WITH_FFMPEG_480 : String :=
  "bv*[ext=mp4][height<=480]+ba[ext=m4a]/bv*+ba/b[ext=mp4][height<=480]/b/best"

/-- `FORMAT_WITH_FFMPEG_360` (src/main.py lines 38-41). -/
def FORMAT_WITH_FFMPEG_360 : String :=
  "bv*[ext=mp4][height<=360]+ba[ext=m4a]/bv*+ba/b[ext=mp4][height<=360]/b/best"

/-- `FORMAT_NO_FFMPEG_720` (src/main.py line 44). -/
def FORMAT_NO_FFMPEG_720 : String :=
  "best[ext=mp4][height<=720]/best[height<=720]/best"

/-- `FORMAT_NO_FFMPEG_480` (src/main.py line 45). -/
def FORMAT_NO_FFMPEG_480 : String :=
  "best[ext=mp4][height<=480]/best[height<=480]/best"

/-- `FORMAT_NO_FFMPEG_360` (src/main.py line 46). -/
def FORMAT_NO_FFMPEG_360 : String :=
  "best[ext=mp4][height<=360]/best[height<=360]/best"

/-- `SUPPORTED_DOMAINS` (src/main.py lines 57-62). -/
def SUPPORTED_DOMAINS : List String :=
  ["youtube.com", "youtu.be", "m.youtube.com",
   "instagram.com", "instagr.am", "www.instagram.com",
   "tiktok.com", "vm.tiktok.com", "facebook.com", "fb.watch",
   "twitter.com", "x.com", "vimeo.com"]

/-- Python `str.endswith`, modelled on the underlying character lists
(`String.data`) so that it is kernel-executable. -/
def strEndsWith (s post : String) : Bool :=
  List.isSuffixOf post.data s.data

/-- `is_supported_url` (src/main.py lines 95-100), modelled at the host level:
the Python function first extracts `urlparse(url).netloc.lower()` (an external
library call) and then tests `any(host.endswith(d) for d in SUPPORTED_DOMAINS)`.
The argument here is that already-lowercased host string. -/
def isSupportedHost (host : String) : Bool :=
  SUPPORTED_DOMAINS.any (fun d => strEndsWith host d)

/-! ### Quality tiers and the format ladder (src/main.py lines 26, 105-108, 224-232) -/

/-- The quality presets `QUALITIES = ("360", "480", "720")` (src/main.py line 26). -/
inductive Quality where
  | q360
  | q480
  | q720
deriving DecidableEq

/-- `_format_for_quality` (src/main.py lines 105-108): picks the preferred
selector for a quality preset, depending on the `NO_FFMPEG` flag. -/
def formatForQuality (noFfmpeg : Bool) (q : Quality) : String :=
  if noFfmpeg then
    match q with
    | .q720 => FORMAT_NO_FFMPEG_720
    | .q480 => FORMAT_NO_FFMPEG_480
    | .q360 => FORMAT_NO_FFMPEG_360
  else
    match q with
    | .q720 => FORMAT_WITH_FFMPEG_720
    | .q480 => FORMAT_WITH_FFMPEG_480
    | .q360 => FORMAT_WITH_FFMPEG_360

/-- The fallback-ladder construction at the top of `_extract_and_download`
(src/main.py lines 224-232): start from `[fmt_pref]`, then append each element
of the mode's downshift chain that is not already present. -/
def buildFallbacks (noFfmpeg : Bool) (fmtPref : String) : List String :=
  let chain : List String :=
    if noFfmpeg then [FORMAT_NO_FFMPEG_480, FORMAT_NO_FFMPEG_360, "best"]
    else [FORMAT_WITH_FFMPEG_480, FORMAT_WITH_FFMPEG_360, "b/best"]
  chain.foldl (fun acc f => if f ∈ acc then acc else acc ++ [f]) [fmtPref]

/-- The complete ladder a request with quality preset `q` uses, as built by
`_download_and_send` (line 279) feeding `_extract_and_download` (line 224). -/
def ladderFor (noFfmpeg : Bool) (q : Quality) : List String :=
  buildFallbacks noFfmpeg (formatForQuality noFfmpeg q)

/-- The universal last-resort selector each mode's chain ends in
(src/main.py lines 227 and 229). -/
def universalFallback (noFfmpeg : Bool) : String :=
  if noFfmpeg then "best" else "b/best"

/-- The target quality (height cap) a selector string encodes: 720/480/360 for
the six named selector constants, 0 for the unconstrained last-resort
selectors.  Used to state the spec's "descending target quality" ordering. -/
def selectorHeight (s : String) : Nat :=
  if s = FORMAT_WITH_FFMPEG_720 ∨ s = FORMAT_NO_FFMPEG_720 then 720
  else if s = FORMAT_WITH_FFMPEG_480 ∨ s = FORMAT_NO_FFMPEG_480 then 480
  else if s = FORMAT_WITH_FFMPEG_360 ∨ s = FORMAT_NO_FFMPEG_360 then 360
  else 0

/-- Strict descent of a list of numbers, executable. -/
def strictlyDescending : List Nat → Bool
  | [] => true
  | [_] => true
  | a :: b :: tl => decide (b < a) && strictlyDescending (b :: tl)

/-! ### Size admission (`_estimated_too_big`, src/main.py lines 201-216) -/

/-- One entry of `info["requested_formats"]`: the two size keys the code reads.
`none` models a missing key (or a non-numeric value, which
`isinstance(v, (int, float))` skips). -/
structure StreamFmt where
  filesize : Option Int
  filesize_approx : Option Int
deriving DecidableEq

/-- The fields of the extractor's info dict that `_estimated_too_big` reads:
the two direct size keys and the optional `requested_formats` list. -/
structure InfoDict where
  filesize : Option Int
  filesize_approx : Option Int
  requested_formats : Option (List StreamFmt)
deriving DecidableEq

/-- The first loop of `_estimated_too_big` (src/main.py lines 202-206): return
`True` as soon as either direct size key holds a number above `MAX_TG_BYTES`. -/
def directTooBig (maxBytes : Int) (info : InfoDict) : Bool :=
  (match info.filesize with
   | some v => decide (v > maxBytes)
   | none => false) ||
  (match info.filesize_approx with
   | some v => decide (v > maxBytes)
   | none => false)

/-- The per-stream accumulation of `_estimated_too_big` (src/main.py lines
207-213): for every stream, every present size key is added to the running
total — a stream carrying both `filesize` and `filesize_approx` contributes
both. -/
def streamTotal (fs : List StreamFmt) : Int :=
  fs.foldl (fun t f => t + (f.filesize.getD 0) + (f.filesize_approx.getD 0)) 0

/-- `_estimated_too_big` (src/main.py lines 201-216). -/
def estimatedTooBig (maxBytes : Int) (info : InfoDict) : Bool :=
  if directTooBig maxBytes info then true
  else
    match info.requested_formats with
    | some fs =>
        let total := streamTotal fs
        decide (total ≠ 0) && decide (total > maxBytes)
    | none => false

/-- Whether the metadata carries no size estimate anywhere: no direct key and
no per-stream key (the spec's "no estimates at all"). -/
def infoNoEstimates (info : InfoDict) : Bool :=
  info.filesize.isNone && info.filesize_approx.isNone &&
    (match info.requested_formats with
     | none => true
     | some fs => fs.all (fun f => f.filesize.isNone && f.filesize_approx.isNone))

/-- Modelled from the spec (§4.2, claim C5's reading): the sum taken with
*one* estimate per stream, preferring the exact `filesize` over
`filesize_approx`.  This is the spec-side definition compared against the
code's `streamTotal`, which adds both keys. -/
def specStreamSum (fs : List StreamFmt) : Int :=
  (fs.map (fun f =>
    match f.filesize with
    | some v => v
    | none => f.filesize_approx.getD 0)).sum

/-! ### The probe/selection loop of `_extract_and_download`
(src/main.py lines 234-259) -/

/-- Outcome of one metadata probe (`ydl.extract_info(url, download=False)` for
one selector): success with an info dict, or a raised exception. -/
inductive ProbeResult where
  | ok (info : InfoDict)
  | probeFail
deriving DecidableEq

/-- The `except Exception:` recovery loop (src/main.py lines 249-259): walk the
remaining fallbacks; the first selector whose probe succeeds is chosen —
no size admission is evaluated here.  Returns the chosen selector (if any)
together with the list of selectors probed, in order. -/
def tryOtherFormats (probe : String → ProbeResult) :
    List String → Option String × List String
  | [] => (none, [])
  | f :: tl =>
    match probe f with
    | .ok _ => (some f, [f])
    | .probeFail =>
        let r := tryOtherFormats probe tl
        (r.1, f :: r.2)

/-- The "try smaller ones" loop (src/main.py lines 241-248), entered when the
first probe succeeded but was estimated too big: walk the remaining fallbacks,
re-probing each; stop at the first one not estimated too big.  A probe raising
here escapes to the outer `except` handler — modelled as `Except.error`.
Returns the loop result together with the selectors probed, in order. -/
def downshiftScan (maxBytes : Int) (probe : String → ProbeResult) :
    List String → Except Unit (Option String) × List String
  | [] => (Except.ok none, [])
  | f :: tl =>
    match probe f with
    | .probeFail => (Except.error (), [f])
    | .ok info2 =>
        if estimatedTooBig maxBytes info2 then
          let r := downshiftScan maxBytes probe tl
          (r.1, f :: r.2)
        else (Except.ok (some f), [f])

/-- The whole selection phase of `_extract_and_download` (src/main.py lines
234-259) for the ladder `first :: rest`: `chosen_fmt` starts as the first
fallback; a successful, admitted first probe keeps it; a too-big first probe
runs the downshift loop (keeping `fallbacks[0]` when every remaining candidate
is also too big); an exception anywhere runs the recovery loop over
`fallbacks[1:]` (keeping `fallbacks[0]` when every probe raises).  Returns the
chosen selector and the ordered list of selectors probed. -/
def selectFormatLog (maxBytes : Int) (probe : String → ProbeResult)
    (first : String) (rest : List String) : String × List String :=
  match probe first with
  | .probeFail =>
      let r := tryOtherFormats probe rest
      (r.1.getD first, first :: r.2)
  | .ok info =>
      if estimatedTooBig maxBytes info then
        let r := downshiftScan maxBytes probe rest
        match r.1 with
        | .ok (some f) => (f, first :: r.2)
        | .ok none => (first, first :: r.2)
        | .error _ =>
            let r2 := tryOtherFormats probe rest
            (r2.1.getD first, first :: (r.2 ++ r2.2))
      else (first, [first])

/-- The selector `_extract_and_download` downloads with. -/
def selectFormat (maxBytes : Int) (probe : String → ProbeResult)
    (first : String) (rest : List String) : String :=
  (selectFormatLog maxBytes probe first rest).1

/-- Result of `_extract_and_download`'s selection phase plus the fact that the
real transfer (the second `yt_dlp.YoutubeDL` block, src/main.py lines 262-263)
runs unconditionally with the chosen selector, whatever the probes did. -/
structure AcquisitionOutcome where
  chosen : String
  probeLog : List String
  transferAttempted : Bool
deriving DecidableEq

/-- `_extract_and_download` up to the transfer call (src/main.py lines
218-263): selection followed by the unconditional real download. -/
def extractAndDownload (maxBytes : Int) (probe : String → ProbeResult)
    (first : String) (rest : List String) : AcquisitionOutcome :=
  let r := selectFormatLog maxBytes probe first rest
  { chosen := r.1, probeLog := r.2, transferAttempted := true }

/-- Whether a candidate's probe succeeds with metadata admitted under the
ceiling (spec §4.4 step 1's acceptance test for one candidate). -/
def admitsProbe (maxBytes : Int) (probe : String → ProbeResult) (s : String) : Bool :=
  match probe s with
  | .ok i => !(estimatedTooBig maxBytes i)
  | .probeFail => false

/-- Modelled from the spec (§4.4 step 1): the first candidate in ladder order
whose probe succeeds and whose metadata is admitted under the ceiling.  This is
the spec-side selection rule compared against the code's `selectFormat`. -/
def firstAdmitted (maxBytes : Int) (probe : String → ProbeResult)
    (ladder : List String) : Option String :=
  ladder.find? (admitsProbe maxBytes probe)

/-- The probe log the spec's step-1 scan produces on a ladder: every candidate
up to and including the first admitted one, or the whole ladder when no
candidate is admitted. -/
def scanLog (maxBytes : Int) (probe : String → ProbeResult)
    (l : List String) : List String :=
  match l.find? (admitsProbe maxBytes probe) with
  | some f => l.takeWhile (fun s => !(admitsProbe maxBytes probe s)) ++ [f]
  | none => l

/-! ### Artifact resolution (`_pick_final_file`, src/main.py lines 159-167) -/

/-- One regular file found by the recursive directory scan; `ext` is the
file's already-lowercased name suffix (Python's `p.suffix.lower()`, including
the leading dot), `size` its `st_size` and `mtime` its `st_mtime`. -/
structure FileEntry where
  ext : String
  size : Nat
  mtime : Nat
deriving DecidableEq

/-- The media-container extension filter (src/main.py line 161). -/
def MEDIA_EXTS : List String := [".mp4", ".mov", ".mkv", ".webm"]

/-- Strict comparison of Python's sort key `(st_size, st_mtime)`
(src/main.py line 166): lexicographic on size, then mtime. -/
def keyLt (a b : FileEntry) : Prop :=
  a.size < b.size ∨ (a.size = b.size ∧ a.mtime < b.mtime)

instance (a b : FileEntry) : Decidable (keyLt a b) :=
  inferInstanceAs (Decidable (a.size < b.size ∨ (a.size = b.size ∧ a.mtime < b.mtime)))

/-- `pool.sort(key=..., reverse=True); return pool[0]`: the first element of
the pool attaining the lexicographically greatest `(size, mtime)` key (Python's
reverse sort is stable, so ties keep the earlier element first). -/
def pickMax : List FileEntry → Option FileEntry
  | [] => none
  | f :: tl => some (tl.foldl (fun best g => if keyLt best g then g else best) f)

/-- `_pick_final_file` (src/main.py lines 159-167): filter to media
extensions, return `None` when empty, otherwise restrict to `.mp4` files when
any exist and take the element with the greatest `(size, mtime)` key. -/
def pickFinalFile (files : List FileEntry) : Option FileEntry :=
  let media := files.filter (fun f => f.ext ∈ MEDIA_EXTS)
  if media.isEmpty then none
  else
    let mp4s := media.filter (fun f => f.ext = ".mp4")
    let pool := if mp4s.isEmpty then media else mp4s
    pickMax pool

/-! ### The request driver (`_download_and_send`, src/main.py lines 270-307) -/

/-- Outcome of the awaited `_extract_and_download` call as seen by the driver:
a resolved artifact of some byte size and title, a raised
`yt_dlp.utils.DownloadError`, any other raised `Exception`, or asyncio
cancellation (a `BaseException` the two `except` clauses do not catch). -/
inductive FetchOutcome where
  | ok (size : Int) (title : String)
  | downloadError (msg : String)
  | otherError (msg : String)
  | cancelled
deriving DecidableEq

/-- The environment of one `_download_and_send` run: what the fetch does and
whether the two transport send calls (`reply_video`, `reply_document`)
succeed, with the error message they raise when they fail. -/
structure DSEnv where
  fetch : FetchOutcome
  videoSend : Except String Unit
  docSend : Except String Unit

/-- How one `_download_and_send` run concludes, one constructor per exit path:
delivery succeeded; the post-transfer size re-check tripped (carrying the
actual size and the ceiling it was compared against, src/main.py lines
284-290); a download error was reported; a generic error was reported;
cancellation propagated. -/
inductive DSOutcome where
  | delivered
  | tooLarge (size ceiling : Int)
  | downloadErrorReported (msg : String)
  | errorReported (msg : String)
  | cancelledOut
deriving DecidableEq

/-- Observable trace of one `_download_and_send` run: its exit path, whether
`reply_video` / `reply_document` were attempted, and whether the `finally`
block deleted the working directory. -/
structure DSTrace where
  outcome : DSOutcome
  videoAttempted : Bool
  docAttempted : Bool
  cleaned : Bool
deriving DecidableEq

/-- The `try` body with its two `except` clauses (src/main.py lines 274-302):
fetch; re-check the actual size against `MAX_TG_BYTES` and stop without
sending when over (lines 284-290); otherwise `reply_video`, falling back to
`reply_document` on any failure (lines 294-297); a `reply_document` failure
propagates to the outer `except Exception` handler (line 301).  Cancellation
is caught by neither `except` clause. -/
def runBody (maxBytes : Int) (env : DSEnv) : DSOutcome × Bool × Bool :=
  match env.fetch with
  | .ok size _ =>
      if size > maxBytes then (.tooLarge size maxBytes, false, false)
      else
        match env.videoSend with
        | .ok _ => (.delivered, true, false)
        | .error _ =>
            match env.docSend with
            | .ok _ => (.delivered, true, true)
            | .error e => (.errorReported e, true, true)
  | .downloadError m => (.downloadErrorReported m, false, false)
  | .otherError m => (.errorReported m, false, false)
  | .cancelled => (.cancelledOut, false, false)

/-- `_download_and_send` (src/main.py lines 270-307): the body wrapped in the
`finally` clause, which removes the working directory
(`shutil.rmtree(tmpdir, ignore_errors=True)`) on every exit path. -/
def downloadAndSend (maxBytes : Int) (env : DSEnv) : DSTrace :=
  let b := runBody maxBytes env
  { outcome := b.1, videoAttempted := b.2.1, docAttempted := b.2.2, cleaned := true }

/-! ### Spec-side sums and concrete probe environments used by the claims -/

/-- The sum `_estimated_too_big` actually compares against the ceiling, written
as a per-stream map-sum: every present estimate of every stream is added, so a
stream carrying both `filesize` and `filesize_approx` contributes both. -/
def allEstimatesSum (fs : List StreamFmt) : Int :=
  (fs.map (fun f => f.filesize.getD 0 + f.filesize_approx.getD 0)).sum

/-- Probe environment in which the preferred 720p selector's probe raises, the
480p selector probes successfully with a 3 GB estimate (over the default
ceiling), and every other selector probes successfully with an 800 MB
estimate (under the ceiling). -/
def probeFailThenBig (s : String) : ProbeResult :=
  if s = FORMAT_WITH_FFMPEG_720 then .probeFail
  else if s = FORMAT_WITH_FFMPEG_480 then .ok ⟨some 3000000000, none, none⟩
  else .ok ⟨some 800000000, none, none⟩

/-- Probe environment for the spec's end-to-end scenario B: the preferred 720p
selector reports a 3 GB estimate (over the default ceiling) and every other
selector reports 800 MB (under it); no probe fails. -/
def probeScenarioB (s : String) : ProbeResult :=
  if s = FORMAT_WITH_FFMPEG_720 then .ok ⟨some 3000000000, none, none⟩
  else .ok ⟨some 800000000, none, none⟩

end TgVideoBot

namespace TgVideoBot

/-! ## Helper lemmas -/

/-- `streamTotal` as a map-sum: the fold adds both size keys of every stream. -/
theorem streamTotal_eq_allEstimatesSum (fs : List StreamFmt) :
    streamTotal fs = allEstimatesSum fs := by
  have h : ∀ (l : List StreamFmt) (t : Int),
      l.foldl (fun t f => t + (f.filesize.getD 0) + (f.filesize_approx.getD 0)) t
        = t + allEstimatesSum l := by
    intro l
    induction l with
    | nil => intro t; simp [allEstimatesSum]
    | cons f tl ih =>
        intro t
        simp only [List.foldl_cons, ih, allEstimatesSum, List.map_cons, List.sum_cons]
        ring
  simpa [streamTotal] using h fs 0

/-- Streams carrying no estimate contribute nothing to `streamTotal`. -/
theorem streamTotal_of_no_estimates (fs : List StreamFmt)
    (h : ∀ f ∈ fs, f.filesize = none ∧ f.filesize_approx = none) :
    streamTotal fs = 0 := by
  rw [streamTotal_eq_allEstimatesSum]
  unfold allEstimatesSum
  induction fs with
  | nil => simp
  | cons f tl ih =>
      have hf := h f (List.mem_cons_self f tl)
      simp [hf.1, hf.2, ih (fun g hg => h g (List.mem_cons_of_mem f hg))]

/-! ## Claim C4 -/

/-- C4: the size admission check has an inclusive boundary — metadata whose
direct size estimate equals the byte ceiling exactly is accepted, metadata
whose direct estimate is one byte over the ceiling is rejected, and metadata
carrying no size estimates at all is always accepted. -/
theorem claim4_admission_boundary (maxBytes : Int) :
    (∀ info : InfoDict, info.filesize = some maxBytes →
       info.filesize_approx = none → info.requested_formats = none →
       estimatedTooBig maxBytes info = false) ∧
    (∀ info : InfoDict, info.filesize = some (maxBytes + 1) →
       estimatedTooBig maxBytes info = true) ∧
    (∀ info : InfoDict, infoNoEstimates info = true →
       estimatedTooBig maxBytes info = false) := by
  refine ⟨?_, ?_, ?_⟩
  · rintro ⟨fsz, fap, rfm⟩ h1 h2 h3
    simp only at h1 h2 h3
    subst h1; subst h2; subst h3
    simp [estimatedTooBig, directTooBig]
  · rintro ⟨fsz, fap, rfm⟩ h1
    simp only at h1
    subst h1
    have : (maxBytes + 1 > maxBytes) := by omega
    simp [estimatedTooBig, directTooBig, this]
  · rintro ⟨fsz, fap, rfm⟩ h
    simp only [infoNoEstimates, Bool.and_eq_true, Option.isNone_iff_eq_none] at h
    obtain ⟨⟨h1, h2⟩, h3⟩ := h
    subst h1; subst h2
    cases rfm with
    | none => simp [estimatedTooBig, directTooBig]
    | some fs =>
        have hz : streamTotal fs = 0 := by
          apply streamTotal_of_no_estimates
          intro f hf
          have := List.all_eq_true.mp h3 f hf
          simp only [Bool.and_eq_true, Option.isNone_iff_eq_none] at this
          exact this
        simp [estimatedTooBig, directTooBig, hz]

/-- Witness for C4 at the default ceiling. -/
theorem claim4_witness :
    estimatedTooBig MAX_TG_BYTES_DEFAULT
        ⟨some MAX_TG_BYTES_DEFAULT, none, none⟩ = false ∧
    estimatedTooBig MAX_TG_BYTES_DEFAULT
        ⟨some (MAX_TG_BYTES_DEFAULT + 1), none, none⟩ = true ∧
    estimatedTooBig MAX_TG_BYTES_DEFAULT
        ⟨none, none, some [⟨none, none⟩]⟩ = false :=
  ⟨(claim4_admission_boundary MAX_TG_BYTES_DEFAULT).1 _ rfl rfl rfl,
   (claim4_admission_boundary MAX_TG_BYTES_DEFAULT).2.1 _ rfl,
   (claim4_admission_boundary MAX_TG_BYTES_DEFAULT).2.2 _ (by decide)⟩

/-! ## Claim C5 -/

/-- C5 counterexample: at the default ceiling, a single stream carrying both
an exact and an approximate estimate of 1 GB each has a one-estimate-per-stream
sum of 1 GB (positive, under the ceiling), yet the code rejects the metadata,
because it adds both keys and compares 2 GB against the ceiling. -/
theorem claim5_counterexample :
    directTooBig MAX_TG_BYTES_DEFAULT
        ⟨none, none, some [⟨some 1000000000, some 1000000000⟩]⟩ = false ∧
    specStreamSum [⟨some 1000000000, some 1000000000⟩] > 0 ∧
    specStreamSum [⟨some 1000000000, some 1000000000⟩] ≤ MAX_TG_BYTES_DEFAULT ∧
    estimatedTooBig MAX_TG_BYTES_DEFAULT
        ⟨none, none, some [⟨some 1000000000, some 1000000000⟩]⟩ = true := by
  refine ⟨by decide, by decide, by decide, by decide⟩

/-- C5 amended: for metadata without a direct over-ceiling estimate but with a
per-stream list present, the admission check rejects exactly when the sum of
*every* present per-stream estimate — both the exact and the approximate key
of each stream — exceeds the (positive) ceiling. -/
theorem claim5_stream_sum (maxBytes : Int) (hm : 0 < maxBytes)
    (info : InfoDict) (fs : List StreamFmt)
    (hd : directTooBig maxBytes info = false)
    (hrf : info.requested_formats = some fs) :
    estimatedTooBig maxBytes info = true ↔ allEstimatesSum fs > maxBytes := by
  simp only [estimatedTooBig, hd, Bool.false_eq_true, if_false, hrf,
    Bool.and_eq_true, decide_eq_true_eq, streamTotal_eq_allEstimatesSum]
  constructor
  · exact fun h => h.2
  · exact fun h => ⟨by omega, h⟩

/-- Witness for the amended C5. -/
theorem claim5_witness :
    estimatedTooBig 10 ⟨none, none, some [⟨some 6, some 6⟩]⟩ = true ↔
      allEstimatesSum [⟨some 6, some 6⟩] > 10 :=
  claim5_stream_sum 10 (by decide) _ _ (by decide) rfl

/-! ## Claim C9 -/

/-- C9: on every exit path of `_download_and_send` — delivery, too-large,
download error, other exception, cancellation — the `finally` block deletes
the request-scoped working directory. -/
theorem claim9_cleanup (maxBytes : Int) (env : DSEnv) :
    (downloadAndSend maxBytes env).cleaned = true := rfl

/-! ## Claim C6 -/

/-- C6: when the real transfer resolves to an artifact whose actual byte size
exceeds the ceiling, the run ends in the dedicated too-large outcome carrying
the actual size and the ceiling, neither delivery mode is attempted, the
outcome is not an error report, and the working directory is still cleaned. -/
theorem claim6_post_transfer_recheck (maxBytes size : Int) (title : String)
    (env : DSEnv) (hf : env.fetch = .ok size title) (hs : size > maxBytes) :
    downloadAndSend maxBytes env =
      { outcome := .tooLarge size maxBytes, videoAttempted := false,
        docAttempted := false, cleaned := true } := by
  simp [downloadAndSend, runBody, hf, hs]

/-- Witness for C6: scenario C — a 2.0 GB artifact against the default
1.9 GB ceiling. -/
theorem claim6_witness :
    downloadAndSend MAX_TG_BYTES_DEFAULT
        ⟨.ok 2000000000 "video", .ok (), .ok ()⟩ =
      { outcome := .tooLarge 2000000000 MAX_TG_BYTES_DEFAULT,
        videoAttempted := false, docAttempted := false, cleaned := true } :=
  claim6_post_transfer_recheck MAX_TG_BYTES_DEFAULT 2000000000 "video" _ rfl (by decide)

/-! ## Claim C8 -/

/-- C8: for every delivery of an admitted artifact, the rich mode
(`reply_video`) is attempted first; when it succeeds the generic mode is never
attempted; on any rich-mode failure the generic mode (`reply_document`) is
attempted exactly once, and only if that also fails is a failure reported
upward. -/
theorem claim8_delivery_fallback (maxBytes size : Int) (title : String)
    (env : DSEnv) (hf : env.fetch = .ok size title) (hs : ¬ size > maxBytes) :
    (downloadAndSend maxBytes env).videoAttempted = true ∧
    (env.videoSend = .ok () →
      (downloadAndSend maxBytes env).docAttempted = false ∧
      (downloadAndSend maxBytes env).outcome = .delivered) ∧
    (∀ e, env.videoSend = .error e →
      (downloadAndSend maxBytes env).docAttempted = true ∧
      (env.docSend = .ok () → (downloadAndSend maxBytes env).outcome = .delivered) ∧
      (∀ e2, env.docSend = .error e2 →
        (downloadAndSend maxBytes env).outcome = .errorReported e2)) := by
  obtain ⟨f, v, d⟩ := env
  simp only at hf
  subst hf
  cases v <;> cases d <;>
    simp [downloadAndSend, runBody, hs]

/-- Witness for C8: rich mode fails, generic mode succeeds, artifact under the
ceiling. -/
theorem claim8_witness :
    (downloadAndSend 10 ⟨.ok 5 "t", .error "boom", .ok ()⟩).videoAttempted = true ∧
    (downloadAndSend 10 ⟨.ok 5 "t", .error "boom", .ok ()⟩).docAttempted = true ∧
    (downloadAndSend 10 ⟨.ok 5 "t", .error "boom", .ok ()⟩).outcome = .delivered := by
  have h := claim8_delivery_fallback 10 5 "t"
    ⟨.ok 5 "t", .error "boom", .ok ()⟩ rfl (by decide)
  exact ⟨h.1, (h.2.2 "boom" rfl).1, (h.2.2 "boom" rfl).2.1 rfl⟩

/-! ## Claim C10 -/

/-- C10: the supported-URL predicate accepts exactly when the lowercased host
ends with one of the listed domain strings; consequently the host
`evilyoutube.com` — which equals none of the listed domains and is a
subdomain of none of them — is accepted, because it ends with `youtube.com`. -/
theorem claim10_suffix_match :
    (∀ host : String, isSupportedHost host = true ↔
        ∃ d ∈ SUPPORTED_DOMAINS, strEndsWith host d = true) ∧
    isSupportedHost "evilyoutube.com" = true ∧
    (∀ d ∈ SUPPORTED_DOMAINS,
      "evilyoutube.com" ≠ d ∧
      strEndsWith "evilyoutube.com" ("." ++ d) = false) := by
  refine ⟨?_, by decide, by decide⟩
  intro host
  simp [isSupportedHost, List.any_eq_true]

/-- Witness for C10 at the listed domain `youtube.com`. -/
theorem claim10_witness :
    isSupportedHost "evilyoutube.com" = true ∧
    "evilyoutube.com" ≠ "youtube.com" :=
  ⟨claim10_suffix_match.2.1,
   (claim10_suffix_match.2.2 "youtube.com" (by decide)).1⟩

end TgVideoBot

namespace TgVideoBot

/-! ## Claim C2 -/

/-- When every probe in a list raises, the recovery loop chooses nothing and
probes the whole list in order. -/
theorem tryOtherFormats_all_fail (probe : String → ProbeResult) :
    ∀ l : List String, (∀ s ∈ l, probe s = .probeFail) →
      tryOtherFormats probe l = (none, l) := by
  intro l
  induction l with
  | nil => intro _; rfl
  | cons f tl ih =>
      intro h
      have hf := h f (List.mem_cons_self f tl)
      simp [tryOtherFormats, hf, ih (fun s hs => h s (List.mem_cons_of_mem f hs))]

/-- C2 counterexample: with the ffmpeg-mode 720p ladder and every probe
raising, `_extract_and_download` keeps the *first* ladder entry as its chosen
format — not the last one, which is the distinct selector `b/best`. -/
theorem claim2_counterexample :
    extractAndDownload MAX_TG_BYTES_DEFAULT (fun _ => .probeFail)
        FORMAT_WITH_FFMPEG_720 ((ladderFor false .q720).tail) =
      ⟨FORMAT_WITH_FFMPEG_720, ladderFor false .q720, true⟩ ∧
    (ladderFor false .q720).getLast? = some "b/best" ∧
    FORMAT_WITH_FFMPEG_720 ≠ "b/best" := by
  refine ⟨by decide, by decide, by decide⟩

/-- C2 amended: if every probe in the ladder fails, the pipeline keeps the
*first* (most preferred) candidate — not the last — having probed every
candidate once, and still proceeds to perform the real transfer rather than
aborting from probe exhaustion. -/
theorem claim2_probe_exhaustion (maxBytes : Int) (probe : String → ProbeResult)
    (first : String) (rest : List String)
    (hall : ∀ s ∈ first :: rest, probe s = .probeFail) :
    extractAndDownload maxBytes probe first rest =
      ⟨first, first :: rest, true⟩ := by
  have hfirst := hall first (List.mem_cons_self first rest)
  have hrest := tryOtherFormats_all_fail probe rest
    (fun s hs => hall s (List.mem_cons_of_mem first hs))
  simp [extractAndDownload, selectFormatLog, hfirst, hrest]

/-- Witness for the amended C2. -/
theorem claim2_witness :
    extractAndDownload 5 (fun _ => .probeFail) "a" ["b"] = ⟨"a", ["a", "b"], true⟩ :=
  claim2_probe_exhaustion 5 (fun _ => .probeFail) "a" ["b"] (by intro s _; rfl)

/-! ## Claim C3 -/

/-- C3 counterexample: for the 360p tier in ffmpeg mode, the built ladder's
target-quality sequence is `[360, 480, 0]` — its second entry targets a
*higher* quality than its first, so the ladder is not strictly ordered by
descending target quality. -/
theorem claim3_counterexample :
    (ladderFor false .q360).map selectorHeight = [360, 480, 0] ∧
    strictlyDescending ((ladderFor false .q360).map selectorHeight) = false := by
  refine ⟨by decide, by decide⟩

/-- C3 amended: for every tier/merge-mode combination the ladder is non-empty,
duplicate-free and ends in the mode's universal fallback selector; it is
strictly ordered by descending target quality for the 480 and 720 tiers, but
for the 360 tier the downshift chain appends the 480p selector *after* the
preferred 360p selector, giving the non-descending sequence `[360, 480, 0]`. -/
theorem claim3_ladder_shape (noFfmpeg : Bool) (q : Quality) :
    ladderFor noFfmpeg q ≠ [] ∧
    (ladderFor noFfmpeg q).Nodup ∧
    (ladderFor noFfmpeg q).getLast? = some (universalFallback noFfmpeg) ∧
    (q ≠ .q360 →
      strictlyDescending ((ladderFor noFfmpeg q).map selectorHeight) = true) ∧
    (q = .q360 →
      (ladderFor noFfmpeg q).map selectorHeight = [360, 480, 0]) := by
  cases noFfmpeg <;> cases q <;>
    refine ⟨by decide, by decide, by decide, by decide, by decide⟩

/-- Witness for the amended C3 at the ffmpeg-mode 720 tier. -/
theorem claim3_witness :
    strictlyDescending ((ladderFor false .q720).map selectorHeight) = true :=
  (claim3_ladder_shape false .q720).2.2.2.1 (by decide)

end TgVideoBot

namespace TgVideoBot

/-! ## Claim C7 -/

/-- The sort key's strict order is transitive. -/
theorem keyLt_trans {a b c : FileEntry} (h1 : keyLt a b) (h2 : keyLt b c) :
    keyLt a c := by
  unfold keyLt at h1 h2 ⊢
  omega

/-- A strict key comparison composes with a non-strict one. -/
theorem keyLt_of_keyLt_of_not {a b c : FileEntry}
    (h1 : keyLt a b) (h2 : ¬ keyLt c b) : keyLt a c := by
  unfold keyLt at h1 h2 ⊢
  omega

/-- The fold inside `pickMax` stays within the candidate pool. -/
theorem foldlMax_mem : ∀ (tl : List FileEntry) (a : FileEntry),
    tl.foldl (fun best g => if keyLt best g then g else best) a ∈ a :: tl
  | [], a => by simp
  | b :: tl, a => by
      simp only [List.foldl_cons]
      have h := foldlMax_mem tl (if keyLt a b then b else a)
      rcases List.mem_cons.mp h with h1 | h1
      · rw [h1]
        by_cases hk : keyLt a b <;> simp [hk]
      · simp [h1]

/-- The fold inside `pickMax` returns an element no pool member strictly
exceeds in the `(size, mtime)` key order. -/
theorem foldlMax_ge : ∀ (tl : List FileEntry) (a : FileEntry),
    ∀ g ∈ a :: tl, ¬ keyLt (tl.foldl (fun best g => if keyLt best g then g else best) a) g
  | [], a, g, hg => by
      simp only [List.mem_singleton] at hg
      subst hg
      simp only [List.foldl_nil]
      unfold keyLt
      omega
  | b :: tl, a, g, hg => by
      simp only [List.foldl_cons]
      have ih := foldlMax_ge tl (if keyLt a b then b else a)
      by_cases hk : keyLt a b
      · simp only [if_pos hk] at ih ⊢
        rcases List.mem_cons.mp hg with h1 | h1
        · subst h1
          have hb := ih b (List.mem_cons_self b tl)
          intro hlt
          exact hb (keyLt_trans hlt hk)
        · exact ih g h1
      · simp only [if_neg hk] at ih ⊢
        rcases List.mem_cons.mp hg with h1 | h1
        · subst h1
          exact ih g (List.mem_cons_self g tl)
        · rcases List.mem_cons.mp h1 with h2 | h2
          · subst h2
            have ha := ih a (List.mem_cons_self a tl)
            intro hlt
            exact ha (keyLt_of_keyLt_of_not hlt hk)
          · exact ih g (List.mem_cons_of_mem a h2)

/-- `pickMax` returns a member of the pool that no pool member strictly
exceeds. -/
theorem pickMax_spec (l : List FileEntry) (f : FileEntry)
    (hp : pickMax l = some f) : f ∈ l ∧ ∀ g ∈ l, ¬ keyLt f g := by
  cases l with
  | nil => simp [pickMax] at hp
  | cons a tl =>
      simp only [pickMax, Option.some_inj] at hp
      subst hp
      exact ⟨foldlMax_mem tl a, foldlMax_ge tl a⟩

/-- A non-empty pool always yields a picked element. -/
theorem pickMax_ne_none (l : List FileEntry) (h : l ≠ []) : pickMax l ≠ none := by
  cases l with
  | nil => exact absurd rfl h
  | cons a tl => simp [pickMax]

/-- C7: the artifact resolver returns the no-artifact result exactly when no
scanned file has a known media extension; any resolved artifact is a scanned
media file; when any scanned file is an `.mp4` the resolved artifact is an
`.mp4` regardless of relative sizes; and no `.mp4` among the scanned files
strictly exceeds the resolved artifact in the size-then-mtime key order. -/
theorem claim7_artifact_resolver (files : List FileEntry) :
    (pickFinalFile files = none ↔ ∀ f ∈ files, f.ext ∉ MEDIA_EXTS) ∧
    (∀ f, pickFinalFile files = some f →
      f ∈ files ∧ f.ext ∈ MEDIA_EXTS ∧
      ((∃ g ∈ files, g.ext = ".mp4") → f.ext = ".mp4") ∧
      (∀ g ∈ files, g.ext = ".mp4" → ¬ keyLt f g)) := by
  constructor
  · unfold pickFinalFile
    by_cases hm : (files.filter (fun f => f.ext ∈ MEDIA_EXTS)).isEmpty
    · simp only [hm, if_true, true_iff]
      intro f hf hmedia
      rw [List.isEmpty_iff] at hm
      have : f ∈ files.filter (fun f => f.ext ∈ MEDIA_EXTS) :=
        List.mem_filter.mpr ⟨hf, by simpa using hmedia⟩
      rw [hm] at this
      simp at this
    · simp only [hm, if_false]
      have hne : files.filter (fun f => f.ext ∈ MEDIA_EXTS) ≠ [] := by
        intro h; rw [h] at hm; simp at hm
      obtain ⟨a, tl, heq⟩ := List.exists_cons_of_ne_nil hne
      constructor
      · intro hnone
        exfalso
        by_cases hmp4 :
            ((files.filter (fun f => f.ext ∈ MEDIA_EXTS)).filter
              (fun f => f.ext = ".mp4")).isEmpty
        · rw [if_pos hmp4] at hnone
          exact pickMax_ne_none _ hne hnone
        · rw [if_neg hmp4] at hnone
          refine pickMax_ne_none _ ?_ hnone
          intro h; rw [h] at hmp4; simp at hmp4
      · intro hall
        exfalso
        have ha : a ∈ files.filter (fun f => f.ext ∈ MEDIA_EXTS) := by
          rw [heq]; exact List.mem_cons_self a tl
        have := List.mem_filter.mp ha
        exact hall a this.1 (by simpa using this.2)
  · intro f hp
    unfold pickFinalFile at hp
    by_cases hm : (files.filter (fun f => f.ext ∈ MEDIA_EXTS)).isEmpty
    · simp [hm] at hp
    · simp only [hm, if_false] at hp
      by_cases hmp4 :
          ((files.filter (fun f => f.ext ∈ MEDIA_EXTS)).filter
            (fun f => f.ext = ".mp4")).isEmpty
      · -- no mp4 among the media files: the pool is the whole media list
        simp only [hmp4, if_true] at hp
        obtain ⟨hmem, hge⟩ := pickMax_spec _ _ hp
        have hmf := List.mem_filter.mp hmem
        refine ⟨hmf.1, by simpa using hmf.2, ?_, ?_⟩
        · rintro ⟨g, hg, hgext⟩
          exfalso
          have hgm : g ∈ (files.filter (fun f => f.ext ∈ MEDIA_EXTS)).filter
              (fun f => f.ext = ".mp4") := by
            refine List.mem_filter.mpr ⟨List.mem_filter.mpr ⟨hg, ?_⟩, by simp [hgext]⟩
            simp [hgext, MEDIA_EXTS]
          rw [List.isEmpty_iff] at hmp4
          rw [hmp4] at hgm
          simp at hgm
        · intro g hg hgext
          exfalso
          have hgm : g ∈ (files.filter (fun f => f.ext ∈ MEDIA_EXTS)).filter
              (fun f => f.ext = ".mp4") := by
            refine List.mem_filter.mpr ⟨List.mem_filter.mpr ⟨hg, ?_⟩, by simp [hgext]⟩
            simp [hgext, MEDIA_EXTS]
          rw [List.isEmpty_iff] at hmp4
          rw [hmp4] at hgm
          simp at hgm
      · -- some mp4 exists: the pool is the mp4 list
        simp only [hmp4, if_false] at hp
        obtain ⟨hmem, hge⟩ := pickMax_spec _ _ hp
        have hmf := List.mem_filter.mp hmem
        have hmedia := List.mem_filter.mp hmf.1
        refine ⟨hmedia.1, by simpa using hmedia.2, fun _ => by simpa using hmf.2, ?_⟩
        intro g hg hgext
        apply hge
        refine List.mem_filter.mpr ⟨List.mem_filter.mpr ⟨hg, ?_⟩, by simp [hgext]⟩
        simp [hgext, MEDIA_EXTS]

/-- Witness for C7: a directory holding a 100-byte `.webm` and a 5-byte
`.mp4` resolves to the `.mp4`. -/
theorem claim7_witness :
    pickFinalFile [⟨".webm", 100, 0⟩, ⟨".mp4", 5, 0⟩] = some ⟨".mp4", 5, 0⟩ ∧
    (⟨".mp4", 5, 0⟩ : FileEntry).ext = ".mp4" :=
  ⟨by decide,
   ((claim7_artifact_resolver [⟨".webm", 100, 0⟩, ⟨".mp4", 5, 0⟩]).2
      ⟨".mp4", 5, 0⟩ (by decide)).2.2.1 ⟨⟨".mp4", 5, 0⟩, by decide, rfl⟩⟩

end TgVideoBot

namespace TgVideoBot

/-! ## Claim C1 -/

/-- When a candidate is not admitted, the spec-side probe log of a ladder
starting with it is that candidate followed by the log of the remainder. -/
theorem scanLog_cons_not_admits (maxBytes : Int) (probe : String → ProbeResult)
    (f : String) (tl : List String)
    (hadm : admitsProbe maxBytes probe f = false) :
    scanLog maxBytes probe (f :: tl) = f :: scanLog maxBytes probe tl := by
  unfold scanLog
  rw [List.find?_cons_of_neg _ (by simp [hadm])]
  cases hfind : tl.find? (admitsProbe maxBytes probe) with
  | none => rfl
  | some g => simp [List.takeWhile_cons, hadm]

/-- When no probe in the remainder raises, the downshift loop of
`_extract_and_download` returns exactly the spec's step-1 scan: the first
admitted candidate (or none), having probed every candidate up to it. -/
theorem downshiftScan_all_ok (maxBytes : Int) (probe : String → ProbeResult) :
    ∀ l : List String, (∀ s ∈ l, probe s ≠ .probeFail) →
      downshiftScan maxBytes probe l =
        (Except.ok (l.find? (admitsProbe maxBytes probe)),
         scanLog maxBytes probe l) := by
  intro l
  induction l with
  | nil => intro _; rfl
  | cons f tl ih =>
      intro h
      have hf := h f (List.mem_cons_self f tl)
      cases hpf : probe f with
      | probeFail => exact absurd hpf hf
      | ok info =>
          by_cases hbig : estimatedTooBig maxBytes info = true
          · have hadm : admitsProbe maxBytes probe f = false := by
              simp [admitsProbe, hpf, hbig]
            have ih' := ih (fun s hs => h s (List.mem_cons_of_mem f hs))
            simp only [downshiftScan, hpf, hbig, if_true, ih',
              List.find?_cons_of_neg _ (by simp [hadm] :
                ¬ admitsProbe maxBytes probe f = true),
              scanLog_cons_not_admits maxBytes probe f tl hadm]
          · rw [Bool.not_eq_true] at hbig
            have hadm : admitsProbe maxBytes probe f = true := by
              simp [admitsProbe, hpf, hbig]
            simp only [downshiftScan, hpf, hbig, Bool.false_eq_true, if_false]
            rw [List.find?_cons_of_pos _ hadm]
            unfold scanLog
            rw [List.find?_cons_of_pos _ hadm]
            simp [List.takeWhile_cons, hadm]

/-- C1 counterexample: ffmpeg-mode 720p ladder at the default ceiling; the
first candidate's probe raises, the second probes successfully with a 3 GB
estimate (over the ceiling, hence not admitted), the third probes successfully
with 800 MB (admitted).  The spec's rule — first candidate with a successful,
admitted probe — picks the third candidate, but the code's recovery loop picks
the second, never evaluating admission after a probe failure. -/
theorem claim1_counterexample :
    selectFormat MAX_TG_BYTES_DEFAULT probeFailThenBig FORMAT_WITH_FFMPEG_720
        ((ladderFor false .q720).tail) = FORMAT_WITH_FFMPEG_480 ∧
    estimatedTooBig MAX_TG_BYTES_DEFAULT
        (⟨some 3000000000, none, none⟩ : InfoDict) = true ∧
    firstAdmitted MAX_TG_BYTES_DEFAULT probeFailThenBig (ladderFor false .q720)
        = some FORMAT_WITH_FFMPEG_360 ∧
    FORMAT_WITH_FFMPEG_480 ≠ FORMAT_WITH_FFMPEG_360 := by
  refine ⟨by decide, by decide, by decide, by decide⟩

/-- C1 amended: *provided no probe in the ladder fails*, the pipeline selects
the first candidate in ladder order whose size estimate is admitted under the
ceiling (keeping the first candidate when none is admitted), probing exactly
the candidates up to and including the selected one; in particular, when the
first candidate's estimate is over the ceiling and the second's is under, the
second is selected.  (When a probe fails, the code's recovery loop selects the
first later candidate whose probe succeeds without evaluating admission.) -/
theorem claim1_first_admitted (maxBytes : Int) (probe : String → ProbeResult)
    (first : String) (rest : List String)
    (hall : ∀ s ∈ first :: rest, probe s ≠ .probeFail) :
    selectFormatLog maxBytes probe first rest =
      ((firstAdmitted maxBytes probe (first :: rest)).getD first,
       scanLog maxBytes probe (first :: rest)) := by
  have hfirst := hall first (List.mem_cons_self first rest)
  cases hpf : probe first with
  | probeFail => exact absurd hpf hfirst
  | ok info =>
      have hds := downshiftScan_all_ok maxBytes probe rest
        (fun s hs => hall s (List.mem_cons_of_mem first hs))
      by_cases hbig : estimatedTooBig maxBytes info = true
      · have hadm : admitsProbe maxBytes probe first = false := by
          simp [admitsProbe, hpf, hbig]
        rw [scanLog_cons_not_admits maxBytes probe first rest hadm]
        simp only [selectFormatLog, hpf, hbig, if_true, hds]
        rw [firstAdmitted, List.find?_cons_of_neg _ (by simp [hadm] :
          ¬ admitsProbe maxBytes probe first = true)]
        cases hfind : rest.find? (admitsProbe maxBytes probe) with
        | none => simp [firstAdmitted, hfind]
        | some g => simp [firstAdmitted, hfind]
      · rw [Bool.not_eq_true] at hbig
        have hadm : admitsProbe maxBytes probe first = true := by
          simp [admitsProbe, hpf, hbig]
        simp only [selectFormatLog, hpf, hbig, Bool.false_eq_true, if_false]
        rw [firstAdmitted, List.find?_cons_of_pos _ hadm]
        unfold scanLog
        rw [List.find?_cons_of_pos _ hadm]
        simp [List.takeWhile_cons, hadm]

/-- Witness for the amended C1, instantiating the spec's scenario B on the
ffmpeg-mode 720p ladder at the default ceiling: the first candidate reports
3 GB (over), the second 800 MB (under); the second is selected and the probe
log stops there. -/
theorem claim1_witness :
    selectFormatLog MAX_TG_BYTES_DEFAULT probeScenarioB FORMAT_WITH_FFMPEG_720
        ((ladderFor false .q720).tail) =
      (FORMAT_WITH_FFMPEG_480, [FORMAT_WITH_FFMPEG_720, FORMAT_WITH_FFMPEG_480]) := by
  have h := claim1_first_admitted MAX_TG_BYTES_DEFAULT probeScenarioB
    FORMAT_WITH_FFMPEG_720 ((ladderFor false .q720).tail) (by decide)
  rw [h]
  decide

end TgVideoBot
